import Mathlib

/-!
Verification development for the manufacturing-operations API
(`route_api`): a shallow embedding in Lean 4 of the database invocation
layer (`database/db.py`) and of the entity services and controllers
(`units/`, `workstations/`, `routes/`, `products/`), together with
theorems settling the behavioural claims about them.

Strings are modelled as `List Char` so that every string operation is a
structurally recursive function the kernel can evaluate.
-/

/-- Strings of the model: lists of characters. -/
abbrev Str := List Char

/-- Coerce a Lean string literal into the model's string type. -/
def lit (s : String) : Str := s.data

/-- `strStartsWith needle hay`: `hay` begins with `needle`. -/
def strStartsWith : Str → Str → Bool
  | [], _ => true
  | _ :: _, [] => false
  | a :: as, b :: bs => a == b && strStartsWith as bs

/-- `strContains needle hay`: `needle` occurs as a contiguous substring of
`hay`; model of Python's `needle in hay`. -/
def strContains (needle : Str) : Str → Bool
  | [] => strStartsWith needle []
  | c :: rest => strStartsWith needle (c :: rest) || strContains needle rest

/-- Join a list of strings with a separator; model of `sep.join(xs)`. -/
def strJoin (sep : Str) : List Str → Str
  | [] => []
  | [x] => x
  | x :: y :: rest => x ++ sep ++ strJoin sep (y :: rest)

/-- ASCII uppercase of one character. -/
def charUpper (c : Char) : Char :=
  if 'a' ≤ c && c ≤ 'z' then Char.ofNat (c.toNat - 32) else c

/-- Model of Python `str.upper()` (ASCII range, which covers every string
the code compares). -/
def strUpper (s : Str) : Str := s.map charUpper

/-- Whitespace test used by Python `str.strip()` with no argument. -/
def isPySpace (c : Char) : Bool :=
  c == ' ' || c == '\t' || c == '\n' || c == '\r'

/-- Model of Python `str.strip()`: drop leading and trailing whitespace. -/
def strStrip (s : Str) : Str :=
  ((s.dropWhile isPySpace).reverse.dropWhile isPySpace).reverse

/-- Decimal digit value of a character, if it is a digit. -/
def digitVal (c : Char) : Option Nat :=
  if '0' ≤ c && c ≤ '9' then some (c.toNat - '0'.toNat) else none

/-- Value of a nonempty all-digit string, `none` otherwise. -/
def digitsVal (s : Str) : Option Nat :=
  match s with
  | [] => none
  | _ =>
    s.foldl (fun acc c =>
      match acc, digitVal c with
      | some n, some d => some (n * 10 + d)
      | _, _ => none) (some 0)

/-- Model of Python `int(s)` on a string: surrounding whitespace is
ignored, an optional sign precedes a nonempty digit run; anything else
raises `ValueError` (modelled as `none`). -/
def pyIntOfStr (s : Str) : Option Int :=
  match strStrip s with
  | '+' :: ds => (digitsVal ds).map Int.ofNat
  | '-' :: ds => (digitsVal ds).map (fun n => -(n : Int))
  | ds => (digitsVal ds).map Int.ofNat

/-- Decimal rendering of a natural number (for f-string interpolation of
integer values in error messages). -/
def natToStr (n : Nat) : Str :=
  Nat.toDigits 10 n

/-! ## The invocation layer: `database/db.py`, `execute_stored_procedure` -/

/-- A SQL parameter value as passed through `pyodbc`. -/
inductive Val where
  | s (v : Str)
  | i (n : Int)
  | null
  | b (v : Bool)
deriving DecidableEq

/-- Model of a `pyodbc` exception: whether it is a
`pyodbc.ProgrammingError`, and its `args` tuple (each arg rendered as a
string). -/
structure PyodbcError where
  isProgrammingError : Bool
  args : List Str
deriving DecidableEq

/-- Model of `str(e.args[0]) if e.args else ""` (db.py line 94). -/
def errorCode (e : PyodbcError) : Str := e.args.headD []

/-- Model of `str(e)`: the args joined (pyodbc renders the args tuple). -/
def errStr (e : PyodbcError) : Str := strJoin (lit ", ") e.args

/-- The "stored procedure not found" test of db.py line 95:
`"2812" in error_code or "Could not find stored procedure" in str(e)`. -/
def isProcNotFound (e : PyodbcError) : Bool :=
  strContains (lit "2812") (errorCode e) ||
    strContains (lit "Could not find stored procedure") (errStr e)

/-- Observable events of one `execute_stored_procedure` call: connection
opens and closes, statement executions (with the connection they run on,
the SQL text, and the bound parameters), and commits.  Connections are
numbered in order of opening: 0 is the first `get_db_connection()`, 1 the
retry connection. -/
inductive Ev where
  | openConn (c : Nat)
  | exec (c : Nat) (sql : Str) (ps : List Val)
  | commit (c : Nat)
  | close (c : Nat)
deriving DecidableEq

/-- The database environment: what `cursor.execute` does for a given
connection, SQL text and parameter list — `none` for success, `some e`
when the driver raises `e`. -/
structure DBEnv where
  exec : Nat → Str → List Val → Option PyodbcError

/-- An error propagated out of `execute_stored_procedure`: either the
re-raised `pyodbc` error or a plain `Exception` with a message. -/
inductive Raised where
  | pyerr (e : PyodbcError)
  | exn (msg : Str)
deriving DecidableEq

/-- The outcome of one `execute_stored_procedure` call: the event trace
and either the returned connection id (the cursor lives on it) or the
raised error. -/
structure ESPOut where
  trace : List Ev
  result : Except Raised Nat

instance {ε α : Type} [DecidableEq ε] [DecidableEq α] : DecidableEq (Except ε α) := fun a b =>
  match a, b with
  | .ok x, .ok y => if h : x = y then isTrue (by rw [h]) else isFalse (fun hc => by cases hc; exact h rfl)
  | .ok _, .error _ => isFalse (fun hc => by cases hc)
  | .error _, .ok _ => isFalse (fun hc => by cases hc)
  | .error x, .error y => if h : x = y then isTrue (by rw [h]) else isFalse (fun hc => by cases hc; exact h rfl)

instance : DecidableEq ESPOut := fun a b => by
  cases a; cases b
  exact decidable_of_iff _ (iff_of_eq (ESPOut.mk.injEq _ _ _ _)).symm

/-- f-string rendering of `procedure_name` (db.py lines 80/84/114): Python
renders the value `None` as the text `None`. -/
def pyName : Option Str → Str
  | none => lit "None"
  | some s => s

/-- db.py line 79: `', '.join(['?' for _ in params])`. -/
def placeholders (n : Nat) : Str :=
  strJoin (lit ", ") (List.replicate n (lit "?"))

/-- Python truthiness of the `params` argument (`if params:`): a value
that is not `None` and not an empty sequence. -/
def paramsTruthy (params : Option (List Val)) : Bool :=
  match params with
  | some l => l ≠ []
  | none => false

/-- Python truthiness of the `fallback_sql` argument (`if fallback_sql:`):
not `None` and not the empty string. -/
def fallbackTruthy (fallback_sql : Option Str) : Bool :=
  match fallback_sql with
  | some s => s ≠ []
  | none => false

/-- The SQL text built for the stored-procedure call (db.py lines 77-84):
`f"EXEC {procedure_name} {placeholders}"` when `params` is truthy, else
`f"EXEC {procedure_name}"`. -/
def procCallSql (procedure_name : Option Str) (params : Option (List Val)) : Str :=
  if paramsTruthy params then
    lit "EXEC " ++ pyName procedure_name ++ lit " " ++ placeholders (params.getD []).length
  else
    lit "EXEC " ++ pyName procedure_name

/-- Shallow embedding of `execute_stored_procedure` (db.py lines 58-124).
Connection 0 is the first `get_db_connection()`; on the
procedure-not-found path with a truthy fallback, connection 0 is closed
and connection 1 opened for the retry.  An error raised by the fallback
execution propagates without a close (it is raised inside the
`except pyodbc.ProgrammingError` handler, which the sibling
`except Exception` does not catch). -/
def execute_stored_procedure (env : DBEnv) (procedure_name : Option Str)
    (params : Option (List Val)) (commit : Bool) (fallback_sql : Option Str) : ESPOut :=
  let ps := params.getD []
  let sql := procCallSql procedure_name params
  let pre := [Ev.openConn 0, Ev.exec 0 sql ps]
  match env.exec 0 sql ps with
  | none =>
      if commit then ⟨pre ++ [Ev.commit 0], .ok 0⟩ else ⟨pre, .ok 0⟩
  | some e =>
      if e.isProgrammingError && isProcNotFound e then
        if fallbackTruthy fallback_sql then
          let fsql := fallback_sql.getD []
          let pre2 := pre ++ [Ev.close 0, Ev.openConn 1, Ev.exec 1 fsql ps]
          match env.exec 1 fsql ps with
          | none => if commit then ⟨pre2 ++ [Ev.commit 1], .ok 1⟩ else ⟨pre2, .ok 1⟩
          | some e2 => ⟨pre2, .error (.pyerr e2)⟩
        else
          ⟨pre ++ [Ev.close 0],
            .error (.exn (lit "Stored procedure '" ++ pyName procedure_name ++
              lit "' not found and no fallback SQL provided"))⟩
      else
        ⟨pre ++ [Ev.close 0], .error (.pyerr e)⟩

/-! ## Concrete environments for witnesses and counterexamples -/

/-- A `pyodbc.ProgrammingError` as SQL Server reports a missing stored
procedure (error 2812). -/
def pnfErr : PyodbcError :=
  ⟨true, [lit "42000",
    lit "[42000] [Microsoft][SQL Server]Could not find stored procedure 'sp_Unit_Create'. (2812)"]⟩

/-- Environment where every statement on the first connection fails with
the missing-procedure error and every statement on the retry connection
succeeds. -/
def envPNF : DBEnv := ⟨fun c _ _ => if c = 0 then some pnfErr else none⟩

/-- Environment where every statement succeeds. -/
def envAllOk : DBEnv := ⟨fun _ _ _ => none⟩

/-- The missing-procedure error for the procedure name `None`, as SQL
Server reports it when `EXEC None` is executed. -/
def noneErr : PyodbcError :=
  ⟨true, [lit "42000",
    lit "[42000] [Microsoft][SQL Server]Could not find stored procedure 'None'. (2812)"]⟩

/-- Environment where the first connection rejects its statement with the
missing-procedure error for `None` and the retry connection succeeds. -/
def envNoneMissing : DBEnv := ⟨fun c _ _ => if c = 0 then some noneErr else none⟩

/-! ## The Units table and service: `units/unit_service.py` -/

/-- One row of the `Units` table.  Nullable columns are `Option`;
`createdAt`/`updatedAt` are abstract timestamps (`SYSDATETIMEOFFSET()` is
modelled by a logical clock that ticks on every write). -/
structure UnitRow where
  id : Nat
  unitName : Str
  description : Option Str
  unitSymbol : Option Str
  isActive : Bool
  CreatedBy : Nat
  UpdatedBy : Option Nat
  createdAt : Nat
  updatedAt : Nat
deriving DecidableEq

/-- The `Units` table state: rows in insertion order, the next identity
value, and the logical clock supplying timestamps. -/
structure UnitsState where
  rows : List UnitRow
  nextId : Nat
  clock : Nat
deriving DecidableEq

/-- `SELECT TOP 1 ... ORDER BY createdAt DESC`: the row with the greatest
`createdAt` (first in table order on ties, which SQL leaves
unspecified). -/
def pickLatestBy {α : Type} (created : α → Nat) (rows : List α) : Option α :=
  rows.foldl (fun acc r =>
    match acc with
    | none => some r
    | some b => if created b < created r then some r else some b) none

/-- Payload of `create_unit`: `unitName` and `unitSymbol` are accessed
with `data[...]` (required), `description` with `data.get` (optional,
nullable). -/
structure UnitCreateData where
  unitName : Str
  unitSymbol : Str
  description : Option Str
deriving DecidableEq

/-- What `create_unit` returns on success: either the duplicate-rejection
dictionary `{"status": "error", "message": ...}` or the dictionary of the
re-fetched created row. -/
inductive UnitCreateRet where
  | errorDict (status : Str) (message : Str)
  | recordDict (row : UnitRow)
deriving DecidableEq

/-- Generic shape for update/delete returns: the re-read row dictionary,
or the `{"id": id}` fallback when the re-read finds nothing. -/
inductive RowRet (ρ : Type) where
  | row (r : ρ)
  | idOnly (id : Nat)
deriving DecidableEq

/-- The duplicate check of `create_unit` (unit_service.py lines 22-38):
`SELECT 1 FROM Units WHERE unitName = ? AND unitSymbol = ? AND
isActive = 1`, then `if cursor.fetchone()`. -/
def unitDupExists (rows : List UnitRow) (name symbol : Str) : Bool :=
  rows.any (fun r => r.unitName == name && r.unitSymbol == some symbol && r.isActive)

/-- The insert of `create_unit` (lines 46-57): columns `(unitName,
description, unitSymbol, isActive, CreatedBy, createdAt, updatedAt)` —
`UpdatedBy` is not in the column list, so it is NULL. -/
def insertUnit (st : UnitsState) (name : Str) (description : Option Str)
    (symbol : Str) (user_id : Nat) : UnitsState :=
  { rows := st.rows ++
      [⟨st.nextId, name, description, some symbol, true, user_id, none, st.clock, st.clock⟩],
    nextId := st.nextId + 1, clock := st.clock + 1 }

/-- Shallow embedding of `create_unit` (unit_service.py lines 10-84):
strip name and symbol, reject on an active (name, symbol) duplicate with
a plain error dictionary, otherwise insert and re-fetch the most recent
row created by this user (`SELECT TOP 1 ... WHERE CreatedBy = ? ORDER BY
createdAt DESC`). -/
def create_unit (st : UnitsState) (data : UnitCreateData) (user_id : Nat) :
    UnitsState × Except Str UnitCreateRet :=
  let unit_name := strStrip data.unitName
  let unit_symbol := strStrip data.unitSymbol
  if unitDupExists st.rows unit_name unit_symbol then
    (st, .ok (.errorDict (lit "error")
      (lit "A unit with the specified name and symbol already exists.")))
  else
    let st1 := insertUnit st unit_name data.description unit_symbol user_id
    match pickLatestBy UnitRow.createdAt (st1.rows.filter (fun r => r.CreatedBy == user_id)) with
    | some row => (st1, .ok (.recordDict row))
    | none => (st1, .error (lit "TypeError: argument of type NoneType is not iterable"))

/-- Payload of `update_unit`: `id` and `unitName` are accessed with
`data[...]`; `description` and `unitSymbol` with `data.get`, which
collapses an absent key and an explicit null to `None`. -/
structure UnitUpdateData where
  id : Nat
  unitName : Str
  description : Option Str
  unitSymbol : Option Str
deriving DecidableEq

/-- Shallow embedding of `update_unit` (unit_service.py lines 250-306):
check existence and `isActive` on the first row with the id, then
`UPDATE Units SET unitName = ?, description = ?, unitSymbol = ?,
UpdatedBy = ?, updatedAt = SYSDATETIMEOFFSET() WHERE id = ?` with the
values taken directly from the payload (`data.get` yields NULL for
absent optional fields), then re-read. -/
def update_unit (st : UnitsState) (data : UnitUpdateData) (user_id : Nat) :
    UnitsState × Except Str (RowRet UnitRow) :=
  match st.rows.find? (fun r => r.id == data.id) with
  | none => (st, .error (lit "Unit not found"))
  | some r =>
    if !r.isActive then (st, .error (lit "Cannot update inactive unit"))
    else
      let rows2 := st.rows.map (fun q =>
        if q.id == data.id then
          { q with unitName := data.unitName, description := data.description,
                   unitSymbol := data.unitSymbol, UpdatedBy := some user_id,
                   updatedAt := st.clock }
        else q)
      let st2 : UnitsState := { st with rows := rows2, clock := st.clock + 1 }
      match rows2.find? (fun q => q.id == data.id) with
      | some q => (st2, .ok (.row q))
      | none => (st2, .ok (.idOnly data.id))

/-- Shallow embedding of `delete_unit` (unit_service.py lines 309-357):
read the row, raise "Unit not found" when absent and "Unit already
deleted" when `isActive` is falsy, otherwise `UPDATE ... SET isActive = 0,
UpdatedBy = ?, updatedAt = ... WHERE id = ?` and re-read. -/
def delete_unit (st : UnitsState) (unit_id : Nat) (user_id : Nat) :
    UnitsState × Except Str (RowRet UnitRow) :=
  match st.rows.find? (fun r => r.id == unit_id) with
  | none => (st, .error (lit "Unit not found"))
  | some r =>
    if !r.isActive then (st, .error (lit "Unit already deleted"))
    else
      let rows2 := st.rows.map (fun q =>
        if q.id == unit_id then
          { q with isActive := false, UpdatedBy := some user_id, updatedAt := st.clock }
        else q)
      let st2 : UnitsState := { st with rows := rows2, clock := st.clock + 1 }
      match rows2.find? (fun q => q.id == unit_id) with
      | some q => (st2, .ok (.row q))
      | none => (st2, .ok (.idOnly unit_id))

/-! ## Response envelope and the unit create controller -/

/-- A response `data` payload, as the controllers build it. -/
inductive RespData where
  | null
  | unitRecord (r : UnitRow)
  | unitErrorDict (status : Str) (message : Str)
  | errObj (error : Str)
deriving DecidableEq

/-- The uniform envelope together with the HTTP status code
(`utils/response_utils.py`). -/
structure Envelope where
  status : Str
  message : Str
  data : RespData
  status_code : Nat
deriving DecidableEq

/-- `success_response` (response_utils.py lines 7-22). -/
def success_response (message : Str) (data : RespData) (status_code : Nat) : Envelope :=
  ⟨lit "success", message, data, status_code⟩

/-- `error_response` (response_utils.py lines 24-39). -/
def error_response (message : Str) (data : RespData) (status_code : Nat) : Envelope :=
  ⟨lit "error", message, data, status_code⟩

/-- The service return value as it appears in the response `data` slot. -/
def unitRetData : UnitCreateRet → RespData
  | .errorDict s m => .unitErrorDict s m
  | .recordDict r => .unitRecord r

/-- Shallow embedding of the `/unit/create` controller (unit_controller.py
lines 14-34): a normal return from `create_unit` — whatever dictionary it
is — becomes a 201 success envelope; only a raised exception becomes a
400 error envelope. -/
def unit_create_api (st : UnitsState) (data : UnitCreateData) (user_id : Nat) :
    UnitsState × Envelope :=
  match create_unit st data user_id with
  | (st2, .ok ret) =>
      (st2, success_response (lit "Unit created successfully") (unitRetData ret) 201)
  | (st2, .error e) =>
      (st2, error_response (lit "Failed to create unit") (.errObj e) 400)

/-! ## The Products table and service: `products/product_service.py` -/

/-- One row of the `Products` table. -/
structure ProductRow where
  id : Nat
  productName : Str
  description : Option Str
  mainRouteId : Option Nat
  isActive : Bool
  CreatedBy : Nat
  UpdatedBy : Option Nat
  createdAt : Nat
  updatedAt : Nat
deriving DecidableEq

/-- The `Products` table state. -/
structure ProductsState where
  rows : List ProductRow
  nextId : Nat
  clock : Nat
deriving DecidableEq

/-- Payload of `update_product`: `id` comes from `data["id"]`; the
merge fields use `data.get(k, existing)` for `productName`/`mainRouteId`
(outer `none` = key absent) and a `"description" in data` presence check
for `description` (inner `Option` carries an explicit null). -/
structure ProductUpdateData where
  id : Nat
  productName : Option Str
  description : Option (Option Str)
  mainRouteId : Option Nat
deriving DecidableEq

/-- Shallow embedding of `update_product` (product_service.py lines
216-284): load the existing row, fail on missing or inactive, merge the
provided fields over the existing values, write, re-read. -/
def update_product (st : ProductsState) (data : ProductUpdateData) (user_id : Nat) :
    ProductsState × Except Str (RowRet ProductRow) :=
  match st.rows.find? (fun r => r.id == data.id) with
  | none => (st, .error (lit "Product not found"))
  | some ex =>
    if !ex.isActive then (st, .error (lit "Cannot update inactive product"))
    else
      let product_name := data.productName.getD ex.productName
      let description := match data.description with
        | none => ex.description
        | some v => v
      let main_route_id := match data.mainRouteId with
        | none => ex.mainRouteId
        | some n => some n
      let rows2 := st.rows.map (fun q =>
        if q.id == data.id then
          { q with productName := product_name, description := description,
                   mainRouteId := main_route_id, UpdatedBy := some user_id,
                   updatedAt := st.clock }
        else q)
      let st2 : ProductsState := { st with rows := rows2, clock := st.clock + 1 }
      match rows2.find? (fun q => q.id == data.id) with
      | some q => (st2, .ok (.row q))
      | none => (st2, .ok (.idOnly data.id))

/-! ## The Routes table and service: `routes/route_service.py` -/

/-- One row of the `Routes` table (`isMainRoute` is a bit column, modelled
as `Bool`). -/
structure RouteRow where
  id : Nat
  routeName : Str
  description : Option Str
  isMainRoute : Bool
  isActive : Bool
  CreatedBy : Nat
  UpdatedBy : Option Nat
  createdAt : Nat
  updatedAt : Nat
deriving DecidableEq

/-- The `Routes` table state. -/
structure RoutesState where
  rows : List RouteRow
  nextId : Nat
  clock : Nat
deriving DecidableEq

/-- Payload of `update_route`: `routeName` uses `data.get(k, existing)`
(outer `none` = key absent); `description` and `isMainRoute` use a
`k in data` presence check, so their inner `Option` carries an explicit
null (for `isMainRoute`, a null is falsy and becomes bit 0). -/
structure RouteUpdateData where
  id : Nat
  routeName : Option Str
  description : Option (Option Str)
  isMainRoute : Option (Option Bool)
deriving DecidableEq

/-- Shallow embedding of `update_route` (route_service.py lines 301-369):
load the existing row, fail on missing or inactive, merge provided fields
over existing values (`route_name = data.get("routeName", existing)`;
`description = data.get("description") if "description" in data else
existing`; same for `isMainRoute`, then `1 if is_main_route else 0`),
write, re-read. -/
def update_route (st : RoutesState) (data : RouteUpdateData) (user_id : Nat) :
    RoutesState × Except Str (RowRet RouteRow) :=
  match st.rows.find? (fun r => r.id == data.id) with
  | none => (st, .error (lit "Route not found"))
  | some ex =>
    if !ex.isActive then (st, .error (lit "Cannot update inactive route"))
    else
      let route_name := data.routeName.getD ex.routeName
      let description := match data.description with
        | none => ex.description
        | some v => v
      let is_main_route := match data.isMainRoute with
        | none => ex.isMainRoute
        | some v => v.getD false
      let rows2 := st.rows.map (fun q =>
        if q.id == data.id then
          { q with routeName := route_name, description := description,
                   isMainRoute := is_main_route, UpdatedBy := some user_id,
                   updatedAt := st.clock }
        else q)
      let st2 : RoutesState := { st with rows := rows2, clock := st.clock + 1 }
      match rows2.find? (fun q => q.id == data.id) with
      | some q => (st2, .ok (.row q))
      | none => (st2, .ok (.idOnly data.id))

/-! ## The Workstations tables and service: `workstations/workstation_service.py` -/

/-- One row of the `MasterShifts` table (only the columns the workstation
service reads: `id`, `name`, `isActive`). -/
structure ShiftRow where
  id : Nat
  name : Str
  isActive : Bool
deriving DecidableEq

/-- One row of the `Workstations` table. -/
structure WorkstationRow where
  id : Nat
  workstationName : Str
  description : Option Str
  isActive : Bool
  CreatedBy : Nat
  UpdatedBy : Option Nat
  createdAt : Nat
  updatedAt : Nat
deriving DecidableEq

/-- One row of the `WorkstationShifts` join table. -/
structure WsShiftRow where
  id : Nat
  workstationId : Nat
  shiftId : Nat
  startDate : Str
  endDate : Str
  isActive : Bool
  createdAt : Nat
  updatedAt : Nat
deriving DecidableEq

/-- The state the workstation service operates on: the three tables, the
identity counters, and the logical clock. -/
structure WsState where
  workstations : List WorkstationRow
  masterShifts : List ShiftRow
  workstationShifts : List WsShiftRow
  nextWsId : Nat
  nextWsShiftId : Nat
  clock : Nat
deriving DecidableEq

/-- One element of the `shifts` list in the `create_workstation` payload:
`{shiftId, startDate, endDate}`. -/
structure WsShiftInput where
  shiftId : Nat
  startDate : Str
  endDate : Str
deriving DecidableEq

/-- Payload of `create_workstation`: `workstationName` is required,
`description` optional, `shifts` an optional list. -/
structure WsCreateData where
  workstationName : Str
  description : Option Str
  shifts : Option (List WsShiftInput)
deriving DecidableEq

/-- One row of the shift-assignment fetch joined with `MasterShifts`
(`shiftAssignmentId`, `shiftId`, `shiftName`, `startDate`, `endDate`). -/
structure WsShiftJoined where
  shiftAssignmentId : Nat
  shiftId : Nat
  shiftName : Str
  startDate : Str
  endDate : Str
deriving DecidableEq

/-- What `create_workstation` returns: the early
`{"workstationName": ...}` dictionary when the re-fetch finds no row, or
the workstation dictionary with its `shifts` list. -/
inductive WsCreateRet where
  | nameOnly (workstationName : Str)
  | record (ws : WorkstationRow) (shifts : List WsShiftJoined)
deriving DecidableEq

/-- The parent insert of `create_workstation` (lines 23-37): columns
`(workstationName, description, isActive, CreatedBy, UpdatedBy,
createdAt, updatedAt)` with `user_id` as both creator and updater,
committed immediately (`commit` defaults to true). -/
def insertWorkstation (st : WsState) (name : Str) (description : Option Str)
    (user_id : Nat) : WsState :=
  { st with
      workstations := st.workstations ++
        [⟨st.nextWsId, name, description, true, user_id, some user_id, st.clock, st.clock⟩],
      nextWsId := st.nextWsId + 1, clock := st.clock + 1 }

/-- The child insert into `WorkstationShifts` (lines 60-74). -/
def insertWsShift (st : WsState) (wsId shiftId : Nat) (startDate endDate : Str) : WsState :=
  { st with
      workstationShifts := st.workstationShifts ++
        [⟨st.nextWsShiftId, wsId, shiftId, startDate, endDate, true, st.clock, st.clock⟩],
      nextWsShiftId := st.nextWsShiftId + 1, clock := st.clock + 1 }

/-- The `INNER JOIN MasterShifts` part of the assignment fetch: a join
row exists when some master shift has the assignment's `shiftId`. -/
def joinShiftName (st : WsState) (w : WsShiftRow) : Option WsShiftJoined :=
  (st.masterShifts.find? (fun m => m.id == w.shiftId)).map
    (fun m => ⟨w.id, m.id, m.name, w.startDate, w.endDate⟩)

/-- The assignment fetch of lines 77-87: rows of `WorkstationShifts`
matching `(workstationId, shiftId)` joined to `MasterShifts`, ordered by
`ws.createdAt DESC`, first row taken by `fetchone()`. -/
def fetchWsShiftJoined (st : WsState) (wsId shiftId : Nat) : Option WsShiftJoined :=
  match pickLatestBy WsShiftRow.createdAt
      ((st.workstationShifts.filter
        (fun w => w.workstationId == wsId && w.shiftId == shiftId)).filter
        (fun w => (st.masterShifts.find? (fun m => m.id == w.shiftId)).isSome)) with
  | some w => joinShiftName st w
  | none => none

/-- The `for shift in data["shifts"]` loop of `create_workstation`
(lines 52-89): validate the shift id against active `MasterShifts` rows
(raising `Invalid shiftId: ...` when the lookup is empty), insert the
assignment, fetch it joined with shift details, and accumulate. -/
def createWsShiftsLoop (wsId : Nat) : WsState → List WsShiftInput → List WsShiftJoined →
    WsState × Except Str (List WsShiftJoined)
  | st, [], acc => (st, .ok acc)
  | st, s :: rest, acc =>
    match st.masterShifts.find? (fun m => m.id == s.shiftId && m.isActive) with
    | none => (st, .error (lit "Invalid shiftId: " ++ natToStr s.shiftId))
    | some _ =>
      let st2 := insertWsShift st wsId s.shiftId s.startDate s.endDate
      let acc2 := match fetchWsShiftJoined st2 wsId s.shiftId with
        | some j => acc ++ [j]
        | none => acc
      createWsShiftsLoop wsId st2 rest acc2

/-- Shallow embedding of `create_workstation` (workstation_service.py
lines 9-95): insert and commit the parent row, re-fetch it by
`CreatedBy`-recency, return early with only the name when the re-fetch
finds nothing, otherwise process the `shifts` list (truthiness check:
present and nonempty) and return the workstation with its assignment
list. -/
def create_workstation (st : WsState) (data : WsCreateData) (user_id : Nat) :
    WsState × Except Str WsCreateRet :=
  let st1 := insertWorkstation st data.workstationName data.description user_id
  match pickLatestBy WorkstationRow.createdAt
      (st1.workstations.filter (fun r => r.CreatedBy == user_id)) with
  | none => (st1, .ok (.nameOnly data.workstationName))
  | some ws =>
    match data.shifts with
    | some shifts =>
      if shifts.isEmpty then (st1, .ok (.record ws []))
      else
        match createWsShiftsLoop ws.id st1 shifts [] with
        | (st2, .ok lst) => (st2, .ok (.record ws lst))
        | (st2, .error e) => (st2, .error e)
    | none => (st1, .ok (.record ws []))

/-- Shallow embedding of `delete_workstation` (workstation_service.py
lines 320-346): `UPDATE Workstations SET isActive = CASE WHEN
isActive = 1 THEN 0 ELSE 1 END, UpdatedBy = ?, updatedAt = ... WHERE
id = ?` — an unconditional toggle with no existence or double-delete
check — then re-read and return the row (or `{"id": id}`). -/
def delete_workstation (st : WsState) (workstation_id : Nat) (user_id : Nat) :
    WsState × RowRet WorkstationRow :=
  let rows2 := st.workstations.map (fun q =>
    if q.id == workstation_id then
      { q with isActive := !q.isActive, UpdatedBy := some user_id, updatedAt := st.clock }
    else q)
  let st2 : WsState := { st with workstations := rows2, clock := st.clock + 1 }
  match rows2.find? (fun q => q.id == workstation_id) with
  | some q => (st2, .row q)
  | none => (st2, .idOnly workstation_id)

/-! ## Pagination handling at the controller boundary -/

/-- A value as it arrives from the parsed JSON body: a Python `int`, a
`str`, or any other value (`None`, float, list, dict — everything for
which `isinstance(v, (int, str))` is false). -/
inductive ReqVal where
  | vint (n : Int)
  | vstr (s : Str)
  | vother
deriving DecidableEq

/-- unit_controller.py line 60:
`page = max(1, int(page)) if isinstance(page, (int, str)) else 1`.
A string that `int()` cannot parse raises `ValueError` (the `.error`
branch), which the controller's `except Exception` turns into a 500. -/
def clampPage (page : ReqVal) : Except Str Int :=
  match page with
  | .vint n => .ok (max 1 n)
  | .vstr s =>
    match pyIntOfStr s with
    | some n => .ok (max 1 n)
    | none => .error (lit "invalid literal for int() with base 10: " ++ s)
  | .vother => .ok 1

/-- unit_controller.py line 61: `per_page = max(1, min(100, int(per_page)))
if isinstance(per_page, (int, str)) else 10`. -/
def clampPerPage (per_page : ReqVal) : Except Str Int :=
  match per_page with
  | .vint n => .ok (max 1 (min 100 n))
  | .vstr s =>
    match pyIntOfStr s with
    | some n => .ok (max 1 (min 100 n))
    | none => .error (lit "invalid literal for int() with base 10: " ++ s)
  | .vother => .ok 10

/-- Shallow embedding of the `/unit/list` controller `list_units_api`
(unit_controller.py lines 37-79) around its pagination handling: the two
clamp lines run inside the `try`, any exception they raise becomes a 500
error envelope; otherwise the service (`get_units`/`search_units`,
abstracted here as the `svc` argument since the claim concerns the
boundary) is called with the clamped values and its outcome wrapped.
`shift_controller.py` lines 45-78 are line-for-line the same shape. -/
def list_units_api (svc : Int → Int → Except Str Unit) (page per_page : ReqVal) : Envelope :=
  match clampPage page with
  | .error e => error_response (lit "Failed to retrieve units") (.errObj e) 500
  | .ok p =>
    match clampPerPage per_page with
    | .error e => error_response (lit "Failed to retrieve units") (.errObj e) 500
    | .ok pp =>
      match svc p pp with
      | .ok _ => success_response (lit "Units retrieved successfully") .null 200
      | .error e => error_response (lit "Failed to retrieve units") (.errObj e) 500

/-! ## Sort-parameter validation in the list/search services -/

/-- The sort-validation lines of `get_units` (unit_service.py lines
101-106): `allowed_columns = ["unitName", "id", "description",
"unitSymbol"]`; an unknown `sort_by` is silently replaced by
`"unitName"`, a `sort_order` whose upper-casing is not ASC/DESC is
silently replaced by `"ASC"`. -/
def get_units_sort_params (sort_by sort_order : Str) : Str × Str :=
  let allowed_columns := [lit "unitName", lit "id", lit "description", lit "unitSymbol"]
  let sb := if allowed_columns.contains sort_by then sort_by else lit "unitName"
  let so := if [lit "ASC", lit "DESC"].contains (strUpper sort_order) then sort_order
            else lit "ASC"
  (sb, so)

/-- The sort-validation lines of `get_routes` (route_service.py lines
119-124): `allowed_columns = ["routeName", "id", "isMainRoute",
"createdAt"]`, default column `"routeName"`, same ASC/DESC policy. -/
def get_routes_sort_params (sort_by sort_order : Str) : Str × Str :=
  let allowed_columns := [lit "routeName", lit "id", lit "isMainRoute", lit "createdAt"]
  let sb := if allowed_columns.contains sort_by then sort_by else lit "routeName"
  let so := if [lit "ASC", lit "DESC"].contains (strUpper sort_order) then sort_order
            else lit "ASC"
  (sb, so)

/-! ## Concrete table states for witnesses and counterexamples -/

/-- An active unit row: Kilogram / kg, with a description. -/
def uKilogram : UnitRow :=
  ⟨1, lit "Kilogram", some (lit "base unit of mass"), some (lit "kg"), true, 5, none, 0, 0⟩

/-- An inactive (soft-deleted) unit row. -/
def uMeterInactive : UnitRow :=
  ⟨2, lit "Meter", some (lit "length"), some (lit "m"), false, 5, none, 1, 1⟩

/-- A small `Units` table: one active row, one inactive row. -/
def stUnits : UnitsState := ⟨[uKilogram, uMeterInactive], 3, 2⟩

/-- An inactive product row. -/
def pWidgetInactive : ProductRow :=
  ⟨1, lit "Widget", some (lit "small part"), some 1, false, 5, none, 0, 0⟩

/-- An active product row with a description. -/
def pGear : ProductRow :=
  ⟨2, lit "Gear", some (lit "steel gear"), some 1, true, 5, none, 1, 1⟩

/-- A small `Products` table: one inactive row, one active row. -/
def stProducts : ProductsState := ⟨[pWidgetInactive, pGear], 3, 2⟩

/-- An active main route with a description. -/
def rAssembly : RouteRow :=
  ⟨1, lit "Assembly", some (lit "main assembly route"), true, true, 5, none, 0, 0⟩

/-- A small `Routes` table: one active row. -/
def stRoutes : RoutesState := ⟨[rAssembly], 2, 1⟩

/-- An inactive workstation row. -/
def wsLatheInactive : WorkstationRow :=
  ⟨1, lit "Lathe", none, false, 5, none, 0, 0⟩

/-- An active master shift row. -/
def shiftDay : ShiftRow := ⟨1, lit "Day", true⟩

/-- A small workstation-service state: one inactive workstation, one
active master shift (id 1), no shift assignments. -/
def stWs : WsState := ⟨[wsLatheInactive], [shiftDay], [], 2, 1, 1⟩

/-! ## Theorems -/

/-- C1: when executing a named stored procedure fails with a
"procedure does not exist" condition ("2812" in the error code or
"Could not find stored procedure" in the message), then with a fallback
statement supplied the function closes connection 0, opens connection 1,
executes the fallback with the same parameters there, commits exactly
when `commit` is true, and returns connection 1 (with the cursor on it);
with no fallback supplied it closes connection 0 and raises an
`Exception` instead of retrying. -/
theorem execute_stored_procedure_proc_not_found
    (env : DBEnv) (nm : Str) (params : Option (List Val)) (commit : Bool)
    (fallback_sql : Option Str) (e : PyodbcError)
    (hfail : env.exec 0 (procCallSql (some nm) params) (params.getD []) = some e)
    (hprog : e.isProgrammingError = true)
    (hpnf : isProcNotFound e = true) :
    (∀ fsql, fallback_sql = some fsql → fsql ≠ [] →
      env.exec 1 fsql (params.getD []) = none →
      execute_stored_procedure env (some nm) params commit fallback_sql =
        ⟨[Ev.openConn 0, Ev.exec 0 (procCallSql (some nm) params) (params.getD []),
          Ev.close 0, Ev.openConn 1, Ev.exec 1 fsql (params.getD [])] ++
          (if commit then [Ev.commit 1] else []), .ok 1⟩) ∧
    (fallback_sql = none →
      execute_stored_procedure env (some nm) params commit fallback_sql =
        ⟨[Ev.openConn 0, Ev.exec 0 (procCallSql (some nm) params) (params.getD []), Ev.close 0],
          .error (.exn (lit "Stored procedure '" ++ nm ++
            lit "' not found and no fallback SQL provided"))⟩) := by
  constructor
  · intro fsql hfb hne hok
    subst hfb
    unfold execute_stored_procedure
    simp only [hfail, hprog, hpnf, Bool.and_self, if_true, fallbackTruthy]
    simp only [ne_eq, hne, not_false_eq_true, decide_True, if_true, Option.getD_some, hok]
    cases commit <;> simp
  · intro hfb
    subst hfb
    unfold execute_stored_procedure
    simp only [hfail, hprog, hpnf, Bool.and_self, if_true, fallbackTruthy]
    simp [pyName]

/-- Witness for C1 at a concrete environment and inputs. -/
theorem execute_stored_procedure_proc_not_found_witness :
    execute_stored_procedure envPNF (some (lit "sp_Unit_Create")) (some [Val.i 7]) true
        (some (lit "INSERT INTO Units (id) VALUES (?)")) =
      ⟨[Ev.openConn 0,
        Ev.exec 0 (procCallSql (some (lit "sp_Unit_Create")) (some [Val.i 7])) [Val.i 7],
        Ev.close 0, Ev.openConn 1,
        Ev.exec 1 (lit "INSERT INTO Units (id) VALUES (?)") [Val.i 7]] ++
        (if true then [Ev.commit 1] else []), .ok 1⟩ ∧
    execute_stored_procedure envPNF (some (lit "sp_Unit_Create")) (some [Val.i 7]) true none =
      ⟨[Ev.openConn 0,
        Ev.exec 0 (procCallSql (some (lit "sp_Unit_Create")) (some [Val.i 7])) [Val.i 7],
        Ev.close 0],
        .error (.exn (lit "Stored procedure '" ++ lit "sp_Unit_Create" ++
          lit "' not found and no fallback SQL provided"))⟩ :=
  ⟨(execute_stored_procedure_proc_not_found envPNF (lit "sp_Unit_Create") (some [Val.i 7]) true
      (some (lit "INSERT INTO Units (id) VALUES (?)")) pnfErr rfl rfl (by decide)).1
      (lit "INSERT INTO Units (id) VALUES (?)") rfl (by decide) rfl,
   (execute_stored_procedure_proc_not_found envPNF (lit "sp_Unit_Create") (some [Val.i 7]) true
      none pnfErr rfl rfl (by decide)).2 rfl⟩

/-- C3 counterexample: with `procedure_name = None` and a fallback
supplied, the code does NOT execute the fallback directly — it first
executes the stored-procedure call `EXEC None ?`.  In an environment
where that statement succeeds, the call returns connection 0 and the
fallback statement is never executed at all, contradicting the claim
that no stored-procedure call is attempted first. -/
theorem execute_stored_procedure_none_attempts_proc_call :
    execute_stored_procedure envAllOk none (some [Val.i 7]) false
        (some (lit "SELECT id FROM Units WHERE CreatedBy = ?")) =
      ⟨[Ev.openConn 0, Ev.exec 0 (lit "EXEC None ?") [Val.i 7]], .ok 0⟩ ∧
    (execute_stored_procedure envAllOk none (some [Val.i 7]) false
        (some (lit "SELECT id FROM Units WHERE CreatedBy = ?"))).trace.all
      (fun ev => match ev with
        | Ev.exec _ sql _ => sql == lit "EXEC None ?"
        | _ => true) = true := by
  constructor
  · decide
  · decide

/-- C3 amended: with `procedure_name = None` and a nonempty fallback
supplied, the code first attempts the stored-procedure call `EXEC None`;
when the database rejects that call with a "procedure does not exist"
error (as SQL Server does for the nonexistent procedure `None`), the
fallback statement is executed with the same parameters on a fresh
connection and that connection (with its cursor) is returned, committing
exactly when `commit` is true. -/
theorem execute_stored_procedure_none_fallback (env : DBEnv) (params : Option (List Val))
    (commit : Bool) (fsql : Str) (e : PyodbcError)
    (hfail : env.exec 0 (procCallSql none params) (params.getD []) = some e)
    (hprog : e.isProgrammingError = true)
    (hpnf : isProcNotFound e = true)
    (hne : fsql ≠ [])
    (hok : env.exec 1 fsql (params.getD []) = none) :
    execute_stored_procedure env none params commit (some fsql) =
      ⟨[Ev.openConn 0, Ev.exec 0 (procCallSql none params) (params.getD []),
        Ev.close 0, Ev.openConn 1, Ev.exec 1 fsql (params.getD [])] ++
        (if commit then [Ev.commit 1] else []), .ok 1⟩ := by
  unfold execute_stored_procedure
  simp only [hfail, hprog, hpnf, Bool.and_self, if_true, fallbackTruthy]
  simp only [ne_eq, hne, not_false_eq_true, decide_True, if_true, Option.getD_some, hok]
  cases commit <;> simp

/-- Witness for the amended C3 at a concrete environment and inputs. -/
theorem execute_stored_procedure_none_fallback_witness :
    execute_stored_procedure envNoneMissing none (some [Val.i 7]) false
        (some (lit "SELECT id FROM Units WHERE CreatedBy = ?")) =
      ⟨[Ev.openConn 0, Ev.exec 0 (procCallSql none (some [Val.i 7])) [Val.i 7],
        Ev.close 0, Ev.openConn 1,
        Ev.exec 1 (lit "SELECT id FROM Units WHERE CreatedBy = ?") [Val.i 7]] ++
        (if false then [Ev.commit 1] else []), .ok 1⟩ :=
  execute_stored_procedure_none_fallback envNoneMissing (some [Val.i 7]) false
    (lit "SELECT id FROM Units WHERE CreatedBy = ?") noneErr rfl rfl (by decide) (by decide) rfl

/-- Helper: a `WHERE id = ?` update followed by a `WHERE id = ?` read.
When the per-row update `g` preserves the predicate on rows it is applied
to, finding in the mapped table is finding in the original table and
applying `g`. -/
theorem find?_update_rows {α : Type} (p : α → Bool) (g : α → α)
    (hg : ∀ a, p a = true → p (g a) = true) :
    ∀ l : List α,
      (l.map (fun a => if p a then g a else a)).find? p = (l.find? p).map g := by
  intro l
  induction l with
  | nil => rfl
  | cons x xs ih =>
    by_cases hp : p x = true
    · simp only [List.map_cons, hp, if_true]
      rw [List.find?_cons_of_pos _ (hg x hp), List.find?_cons_of_pos _ hp]
      rfl
    · have hp2 : p x = false := by
        cases h : p x
        · rfl
        · exact absurd h hp
      simp only [List.map_cons, hp2, Bool.false_eq_true, if_false]
      rw [List.find?_cons_of_neg _ (by simp [hp2]), List.find?_cons_of_neg _ (by simp [hp2])]
      exact ih

/-- C2 counterexample: for the Unit entity, `delete_unit` on a row whose
isActive flag is already 0 does not toggle the flag back to 1 — it raises
"Unit already deleted", leaves the table unchanged, and the flag stays 0. -/
theorem delete_unit_inactive_raises :
    delete_unit stUnits 2 9 = (stUnits, .error (lit "Unit already deleted")) ∧
    ((delete_unit stUnits 2 9).1.rows.find? (fun r => r.id == 2)).map UnitRow.isActive =
      some false := by
  exact ⟨by decide, by decide⟩

/-- C2 amended: the toggle semantics holds for the Workstation entity
only: `delete_workstation` on a row whose isActive flag is already 0
flips it back to 1 and returns the post-operation row state; the Unit
entity's `delete_unit` instead raises "Unit already deleted" and leaves
its row unchanged. -/
theorem delete_toggle_workstation_only
    (stw : WsState) (wid uidw : Nat) (w : WorkstationRow)
    (hw : stw.workstations.find? (fun r => r.id == wid) = some w)
    (hwin : w.isActive = false)
    (stu : UnitsState) (uid uidu : Nat) (u : UnitRow)
    (hu : stu.rows.find? (fun r => r.id == uid) = some u)
    (huin : u.isActive = false) :
    (delete_workstation stw wid uidw).2 =
      .row { w with isActive := true, UpdatedBy := some uidw, updatedAt := stw.clock } ∧
    (delete_workstation stw wid uidw).1.workstations.find? (fun r => r.id == wid) =
      some { w with isActive := true, UpdatedBy := some uidw, updatedAt := stw.clock } ∧
    delete_unit stu uid uidu = (stu, .error (lit "Unit already deleted")) := by
  have hmap := find?_update_rows (fun r : WorkstationRow => r.id == wid)
    (fun q => { q with isActive := !q.isActive, UpdatedBy := some uidw, updatedAt := stw.clock })
    (fun a ha => ha) stw.workstations
  rw [hw] at hmap
  refine ⟨?_, ?_, ?_⟩
  · unfold delete_workstation
    simp only [hmap, Option.map_some]
    simp [hwin]
  · unfold delete_workstation
    dsimp only
    simp only [hmap, Option.map_some', hwin, Bool.not_false]
  · unfold delete_unit
    rw [hu]
    simp [huin]

/-- Witness for the amended C2 at concrete tables. -/
theorem delete_toggle_workstation_only_witness :
    (delete_workstation stWs 1 9).2 =
      .row { wsLatheInactive with isActive := true, UpdatedBy := some 9, updatedAt := stWs.clock } ∧
    (delete_workstation stWs 1 9).1.workstations.find? (fun r => r.id == 1) =
      some { wsLatheInactive with isActive := true, UpdatedBy := some 9, updatedAt := stWs.clock } ∧
    delete_unit stUnits 2 9 = (stUnits, .error (lit "Unit already deleted")) :=
  delete_toggle_workstation_only stWs 1 9 wsLatheInactive (by decide) (by decide)
    stUnits 2 9 uMeterInactive (by decide) (by decide)

/-- C7: for the embedded entity services (Unit and Product), update on an
id with no matching row raises "<Entity> not found" (containing
"not found"), update on a row whose isActive flag is 0 raises
"Cannot update inactive <entity>" (containing "inactive"), and in both
cases the table state is returned unchanged — the update statement is
never executed. -/
theorem update_missing_or_inactive_guards
    (stu : UnitsState) (du : UnitUpdateData) (stp : ProductsState) (dp : ProductUpdateData)
    (uid : Nat) :
    (stu.rows.find? (fun r => r.id == du.id) = none →
      update_unit stu du uid = (stu, .error (lit "Unit not found"))) ∧
    (∀ u, stu.rows.find? (fun r => r.id == du.id) = some u → u.isActive = false →
      update_unit stu du uid = (stu, .error (lit "Cannot update inactive unit"))) ∧
    (stp.rows.find? (fun r => r.id == dp.id) = none →
      update_product stp dp uid = (stp, .error (lit "Product not found"))) ∧
    (∀ p, stp.rows.find? (fun r => r.id == dp.id) = some p → p.isActive = false →
      update_product stp dp uid = (stp, .error (lit "Cannot update inactive product"))) ∧
    strContains (lit "not found") (lit "Unit not found") = true ∧
    strContains (lit "inactive") (lit "Cannot update inactive unit") = true ∧
    strContains (lit "not found") (lit "Product not found") = true ∧
    strContains (lit "inactive") (lit "Cannot update inactive product") = true := by
  refine ⟨?_, ?_, ?_, ?_, by decide, by decide, by decide, by decide⟩
  · intro h
    unfold update_unit
    rw [h]
  · intro u hu hin
    unfold update_unit
    rw [hu]
    simp [hin]
  · intro h
    unfold update_product
    rw [h]
  · intro p hp hin
    unfold update_product
    rw [hp]
    simp [hin]

/-- Witness for C7: a missing id and an inactive row, for both the Unit
and the Product service, at concrete tables. -/
theorem update_missing_or_inactive_guards_witness :
    update_unit stUnits ⟨99, lit "X", none, none⟩ 9 =
      (stUnits, .error (lit "Unit not found")) ∧
    update_unit stUnits ⟨2, lit "X", none, none⟩ 9 =
      (stUnits, .error (lit "Cannot update inactive unit")) ∧
    update_product stProducts ⟨99, none, none, none⟩ 9 =
      (stProducts, .error (lit "Product not found")) ∧
    update_product stProducts ⟨1, none, none, none⟩ 9 =
      (stProducts, .error (lit "Cannot update inactive product")) :=
  ⟨(update_missing_or_inactive_guards stUnits ⟨99, lit "X", none, none⟩ stProducts
      ⟨99, none, none, none⟩ 9).1 (by decide),
   (update_missing_or_inactive_guards stUnits ⟨2, lit "X", none, none⟩ stProducts
      ⟨99, none, none, none⟩ 9).2.1 uMeterInactive (by decide) (by decide),
   (update_missing_or_inactive_guards stUnits ⟨99, lit "X", none, none⟩ stProducts
      ⟨99, none, none, none⟩ 9).2.2.1 (by decide),
   (update_missing_or_inactive_guards stUnits ⟨99, lit "X", none, none⟩ stProducts
      ⟨1, none, none, none⟩ 9).2.2.2.1 pWidgetInactive (by decide) (by decide)⟩

/-- C8: when an active unit with the same stripped (unitName, unitSymbol)
pair already exists, `create_unit` returns the rejection dictionary and
the table state is unchanged — the duplicate check runs before the
insert, and no insert is executed. -/
theorem create_unit_duplicate_rejected
    (st : UnitsState) (data : UnitCreateData) (user_id : Nat)
    (hdup : unitDupExists st.rows (strStrip data.unitName) (strStrip data.unitSymbol) = true) :
    create_unit st data user_id =
      (st, .ok (.errorDict (lit "error")
        (lit "A unit with the specified name and symbol already exists."))) := by
  unfold create_unit
  simp [hdup]

/-- Witness for C8: creating "Kilogram"/" kg " (whitespace is stripped)
when an active Kilogram/kg row exists leaves the table untouched and
returns the rejection dictionary. -/
theorem create_unit_duplicate_rejected_witness :
    create_unit stUnits ⟨lit "Kilogram", lit " kg ", some (lit "dup")⟩ 9 =
      (stUnits, .ok (.errorDict (lit "error")
        (lit "A unit with the specified name and symbol already exists."))) :=
  create_unit_duplicate_rejected stUnits ⟨lit "Kilogram", lit " kg ", some (lit "dup")⟩ 9
    (by decide)

/-- C10: the duplicate rejection of `create_unit` is a normal return
value, not an exception, so the `/unit/create` controller wraps it in a
201 "Unit created successfully" success envelope whose data payload is
the error dictionary. -/
theorem unit_create_api_duplicate_success_envelope
    (st : UnitsState) (data : UnitCreateData) (user_id : Nat)
    (hdup : unitDupExists st.rows (strStrip data.unitName) (strStrip data.unitSymbol) = true) :
    unit_create_api st data user_id =
      (st, ⟨lit "success", lit "Unit created successfully",
        .unitErrorDict (lit "error")
          (lit "A unit with the specified name and symbol already exists."), 201⟩) := by
  unfold unit_create_api create_unit
  simp [hdup, success_response, unitRetData]

/-- Witness for C10 at a concrete table with an active duplicate. -/
theorem unit_create_api_duplicate_success_envelope_witness :
    unit_create_api stUnits ⟨lit "Kilogram", lit "kg", none⟩ 9 =
      (stUnits, ⟨lit "success", lit "Unit created successfully",
        .unitErrorDict (lit "error")
          (lit "A unit with the specified name and symbol already exists."), 201⟩) :=
  unit_create_api_duplicate_success_envelope stUnits ⟨lit "Kilogram", lit "kg", none⟩ 9
    (by decide)

/-- C6 counterexample: for the Unit entity the merge claim fails.
Updating unit 1 with a payload that omits `description` does not retain
the stored value "base unit of mass" — `data.get("description")` yields
None and the update writes NULL. -/
theorem update_unit_absent_description_overwrites :
    (stUnits.rows.find? (fun r => r.id == 1)).map UnitRow.description =
      some (some (lit "base unit of mass")) ∧
    ((update_unit stUnits ⟨1, lit "Kilogram", none, some (lit "kg")⟩ 9).1.rows.find?
        (fun r => r.id == 1)).map UnitRow.description = some none := by
  exact ⟨by decide, by decide⟩

/-- C6 amended: the merge semantics holds for the Route and Product
services — a payload that omits `description` leaves the stored value
unchanged — but not for the Unit service, where an omitted optional
field is overwritten with NULL. -/
theorem update_merge_by_entity
    (str : RoutesState) (dr : RouteUpdateData) (stp : ProductsState) (dp : ProductUpdateData)
    (stu : UnitsState) (du : UnitUpdateData) (uid : Nat) :
    (∀ r, str.rows.find? (fun q => q.id == dr.id) = some r → r.isActive = true →
      dr.description = none →
      ((update_route str dr uid).1.rows.find? (fun q => q.id == dr.id)).map
        RouteRow.description = some r.description) ∧
    (∀ p, stp.rows.find? (fun q => q.id == dp.id) = some p → p.isActive = true →
      dp.description = none →
      ((update_product stp dp uid).1.rows.find? (fun q => q.id == dp.id)).map
        ProductRow.description = some p.description) ∧
    (∀ u, stu.rows.find? (fun q => q.id == du.id) = some u → u.isActive = true →
      du.description = none →
      ((update_unit stu du uid).1.rows.find? (fun q => q.id == du.id)).map
        UnitRow.description = some none) := by
  refine ⟨?_, ?_, ?_⟩
  · intro r hr hact hdesc
    have hmap := find?_update_rows (fun q : RouteRow => q.id == dr.id)
      (fun q =>
        { q with
            routeName := dr.routeName.getD r.routeName,
            description := (match dr.description with
              | none => r.description
              | some v => v),
            isMainRoute := (match dr.isMainRoute with
              | none => r.isMainRoute
              | some v => v.getD false),
            UpdatedBy := some uid,
            updatedAt := str.clock })
      (fun a ha => ha) str.rows
    rw [hr] at hmap
    simp only [hdesc] at hmap
    unfold update_route
    rw [hr]
    simp only [hact, Bool.not_true, Bool.false_eq_true, if_false]
    simp only [hdesc]
    simp only [hmap, Option.map_some']
  · intro p hp hact hdesc
    have hmap := find?_update_rows (fun q : ProductRow => q.id == dp.id)
      (fun q =>
        { q with
            productName := dp.productName.getD p.productName,
            description := (match dp.description with
              | none => p.description
              | some v => v),
            mainRouteId := (match dp.mainRouteId with
              | none => p.mainRouteId
              | some n => some n),
            UpdatedBy := some uid,
            updatedAt := stp.clock })
      (fun a ha => ha) stp.rows
    rw [hp] at hmap
    simp only [hdesc] at hmap
    unfold update_product
    rw [hp]
    simp only [hact, Bool.not_true, Bool.false_eq_true, if_false]
    simp only [hdesc]
    simp only [hmap, Option.map_some']
  · intro u hu hact hdesc
    have hmap := find?_update_rows (fun q : UnitRow => q.id == du.id)
      (fun q =>
        { q with
            unitName := du.unitName,
            description := du.description,
            unitSymbol := du.unitSymbol,
            UpdatedBy := some uid,
            updatedAt := stu.clock })
      (fun a ha => ha) stu.rows
    rw [hu] at hmap
    simp only [hdesc] at hmap
    unfold update_unit
    rw [hu]
    simp only [hact, Bool.not_true, Bool.false_eq_true, if_false]
    simp only [hdesc]
    simp only [hmap, Option.map_some']

/-- Witness for the amended C6 at concrete tables: the route and product
keep their stored descriptions when the payload omits the field; the
unit loses its description. -/
theorem update_merge_by_entity_witness :
    ((update_route stRoutes ⟨1, some (lit "Assembly v2"), none, none⟩ 9).1.rows.find?
        (fun q => q.id == 1)).map RouteRow.description =
      some (some (lit "main assembly route")) ∧
    ((update_product stProducts ⟨2, some (lit "Gear v2"), none, none⟩ 9).1.rows.find?
        (fun q => q.id == 2)).map ProductRow.description =
      some (some (lit "steel gear")) ∧
    ((update_unit stUnits ⟨1, lit "Kilogram", none, some (lit "kg")⟩ 9).1.rows.find?
        (fun q => q.id == 1)).map UnitRow.description = some none :=
  ⟨(update_merge_by_entity stRoutes ⟨1, some (lit "Assembly v2"), none, none⟩
      stProducts ⟨2, some (lit "Gear v2"), none, none⟩
      stUnits ⟨1, lit "Kilogram", none, some (lit "kg")⟩ 9).1
      rAssembly (by decide) (by decide) rfl,
   (update_merge_by_entity stRoutes ⟨1, some (lit "Assembly v2"), none, none⟩
      stProducts ⟨2, some (lit "Gear v2"), none, none⟩
      stUnits ⟨1, lit "Kilogram", none, some (lit "kg")⟩ 9).2.1
      pGear (by decide) (by decide) rfl,
   (update_merge_by_entity stRoutes ⟨1, some (lit "Assembly v2"), none, none⟩
      stProducts ⟨2, some (lit "Gear v2"), none, none⟩
      stUnits ⟨1, lit "Kilogram", none, some (lit "kg")⟩ 9).2.2
      uKilogram (by decide) (by decide) rfl⟩

/-- Helper: the fold inside `pickLatestBy` never turns a `some`
accumulator back into `none`. -/
theorem pickLatestBy_foldl_isSome {α : Type} (created : α → Nat) :
    ∀ (l : List α) (b : α),
      (l.foldl (fun acc r =>
        match acc with
        | none => some r
        | some c => if created c < created r then some r else some c) (some b)).isSome = true := by
  intro l
  induction l with
  | nil => intro b; rfl
  | cons x xs ih =>
    intro b
    simp only [List.foldl_cons]
    by_cases h : created b < created x
    · simp only [h, if_true]
      exact ih x
    · simp only [h, if_false]
      exact ih b

/-- Helper: `SELECT TOP 1 ... ORDER BY createdAt DESC` over a nonempty
result set returns a row. -/
theorem pickLatestBy_isSome {α : Type} (created : α → Nat) (l : List α) (h : l ≠ []) :
    (pickLatestBy created l).isSome = true := by
  cases l with
  | nil => exact absurd rfl h
  | cons x xs =>
    unfold pickLatestBy
    simp only [List.foldl_cons]
    exact pickLatestBy_foldl_isSome created xs x

/-- Helper: when the shift list has a first element whose active-shift
lookup fails, the assignment loop stops with `Invalid shiftId: ...` for
that element, and it never touches the `Workstations` or `MasterShifts`
tables. -/
theorem createWsShiftsLoop_first_invalid (wsId : Nat) :
    ∀ (l : List WsShiftInput) (st : WsState) (acc : List WsShiftJoined) (bad : WsShiftInput),
      l.find? (fun s =>
        (st.masterShifts.find? (fun m => m.id == s.shiftId && m.isActive)).isNone) = some bad →
      (createWsShiftsLoop wsId st l acc).2 =
        .error (lit "Invalid shiftId: " ++ natToStr bad.shiftId) ∧
      (createWsShiftsLoop wsId st l acc).1.workstations = st.workstations := by
  intro l
  induction l with
  | nil =>
    intro st acc bad h
    simp at h
  | cons s rest ih =>
    intro st acc bad h
    cases hm : st.masterShifts.find? (fun m => m.id == s.shiftId && m.isActive) with
    | none =>
      rw [List.find?_cons_of_pos _ (by simp [hm])] at h
      rw [Option.some.injEq] at h
      subst h
      unfold createWsShiftsLoop
      rw [hm]
      exact ⟨rfl, rfl⟩
    | some m =>
      rw [List.find?_cons_of_neg _ (by simp [hm])] at h
      unfold createWsShiftsLoop
      rw [hm]
      exact ih (insertWsShift st wsId s.shiftId s.startDate s.endDate)
        (match fetchWsShiftJoined (insertWsShift st wsId s.shiftId s.startDate s.endDate)
            wsId s.shiftId with
          | some j => acc ++ [j]
          | none => acc) bad h

/-- C4: a workstation-creation call whose shift list has a first entry
referencing no active master shift fails with the descriptive error
"Invalid shiftId: {id}", but by then the workstation parent row has
already been inserted (and committed, since the insert ran with
`commit=True`): the post-state `Workstations` table still carries the new
row — the error does not undo the parent insert. -/
theorem create_workstation_invalid_shift
    (st : WsState) (data : WsCreateData) (user_id : Nat)
    (shifts : List WsShiftInput) (bad : WsShiftInput)
    (hs : data.shifts = some shifts)
    (hbad : shifts.find? (fun s =>
        (st.masterShifts.find? (fun m => m.id == s.shiftId && m.isActive)).isNone) = some bad) :
    (create_workstation st data user_id).2 =
      .error (lit "Invalid shiftId: " ++ natToStr bad.shiftId) ∧
    (create_workstation st data user_id).1.workstations =
      st.workstations ++
        [⟨st.nextWsId, data.workstationName, data.description, true, user_id, some user_id,
          st.clock, st.clock⟩] := by
  have hne : shifts.isEmpty = false := by
    cases shifts
    · simp at hbad
    · rfl
  have hfil :
      ((insertWorkstation st data.workstationName data.description user_id).workstations.filter
        (fun r => r.CreatedBy == user_id)) ≠ [] := by
    unfold insertWorkstation
    simp [List.filter_append]
  cases hpick : pickLatestBy WorkstationRow.createdAt
      ((insertWorkstation st data.workstationName data.description user_id).workstations.filter
        (fun r => r.CreatedBy == user_id)) with
  | none =>
    have := pickLatestBy_isSome WorkstationRow.createdAt _ hfil
    rw [hpick] at this
    simp at this
  | some ws =>
    have hloop := createWsShiftsLoop_first_invalid ws.id shifts
      (insertWorkstation st data.workstationName data.description user_id) [] bad hbad
    rcases hL : createWsShiftsLoop ws.id
        (insertWorkstation st data.workstationName data.description user_id) shifts [] with
      ⟨st2, res⟩
    rw [hL] at hloop
    rcases hloop with ⟨h1, h2⟩
    have h1a : res = Except.error (lit "Invalid shiftId: " ++ natToStr bad.shiftId) := h1
    have h2a : st2.workstations =
        st.workstations ++
          [⟨st.nextWsId, data.workstationName, data.description, true, user_id, some user_id,
            st.clock, st.clock⟩] := h2
    subst h1a
    unfold create_workstation
    simp only [hpick, hs, hne, Bool.false_eq_true, if_false, hL]
    exact ⟨trivial, h2a⟩

/-- Witness for C4: creating workstation "Drill" with one valid shift
(id 1) followed by an invalid shift (id 99) fails with
"Invalid shiftId: 99" while the new parent row stays committed in the
table. -/
theorem create_workstation_invalid_shift_witness :
    (create_workstation stWs
        ⟨lit "Drill", none, some [⟨1, lit "2024-01-01", lit "2024-06-30"⟩,
          ⟨99, lit "2024-07-01", lit "2024-12-31"⟩]⟩ 5).2 =
      .error (lit "Invalid shiftId: " ++ natToStr 99) ∧
    (create_workstation stWs
        ⟨lit "Drill", none, some [⟨1, lit "2024-01-01", lit "2024-06-30"⟩,
          ⟨99, lit "2024-07-01", lit "2024-12-31"⟩]⟩ 5).1.workstations =
      stWs.workstations ++
        [⟨stWs.nextWsId, lit "Drill", none, true, 5, some 5, stWs.clock, stWs.clock⟩] :=
  create_workstation_invalid_shift stWs
    ⟨lit "Drill", none, some [⟨1, lit "2024-01-01", lit "2024-06-30"⟩,
      ⟨99, lit "2024-07-01", lit "2024-12-31"⟩]⟩ 5
    [⟨1, lit "2024-01-01", lit "2024-06-30"⟩, ⟨99, lit "2024-07-01", lit "2024-12-31"⟩]
    ⟨99, lit "2024-07-01", lit "2024-12-31"⟩ rfl (by decide)

/-- C5 counterexample: a non-numeric pagination input does not default
silently — `int("abc")` raises `ValueError` inside the `try`, so the list
request fails with a 500 error envelope even though the service itself
would have succeeded, contradicting the claim that the request still
succeeds. -/
theorem list_units_api_nonnumeric_string_500 :
    list_units_api (fun _ _ => .ok ()) (.vstr (lit "abc")) (.vint 10) =
      error_response (lit "Failed to retrieve units")
        (.errObj (lit "invalid literal for int() with base 10: " ++ lit "abc")) 500 ∧
    (list_units_api (fun _ _ => .ok ()) (.vstr (lit "abc")) (.vint 10)).status =
      lit "error" := by
  exact ⟨by decide, by decide⟩

/-- C5 amended: the clamps hold — an accepted page is at least 1 and an
accepted per_page is between 1 and 100 — and the silent defaulting
applies only to values that are neither int nor str (None, float, list,
dict); a string that `int()` cannot parse instead raises and the request
fails with a 500 error envelope. -/
theorem pagination_clamp_and_defaults
    (v w : ReqVal) (p pp : Int) (svc : Int → Int → Except Str Unit) (s : Str) :
    (clampPage v = .ok p → 1 ≤ p) ∧
    (clampPerPage w = .ok pp → 1 ≤ pp ∧ pp ≤ 100) ∧
    clampPage .vother = .ok 1 ∧
    clampPerPage .vother = .ok 10 ∧
    (pyIntOfStr s = none →
      list_units_api svc (.vstr s) w =
        error_response (lit "Failed to retrieve units")
          (.errObj (lit "invalid literal for int() with base 10: " ++ s)) 500) := by
  refine ⟨?_, ?_, rfl, rfl, ?_⟩
  · intro h
    cases v with
    | vint n =>
      simp only [clampPage, Except.ok.injEq] at h
      subst h
      exact le_max_left 1 n
    | vstr t =>
      simp only [clampPage] at h
      cases hi : pyIntOfStr t with
      | some n =>
        rw [hi] at h
        simp only [Except.ok.injEq] at h
        subst h
        exact le_max_left 1 n
      | none =>
        rw [hi] at h
        cases h
    | vother =>
      simp only [clampPage, Except.ok.injEq] at h
      subst h
      exact le_refl 1
  · intro h
    cases w with
    | vint n =>
      simp only [clampPerPage, Except.ok.injEq] at h
      subst h
      constructor
      · exact le_max_left 1 (min 100 n)
      · exact max_le (by norm_num) (min_le_left 100 n)
    | vstr t =>
      simp only [clampPerPage] at h
      cases hi : pyIntOfStr t with
      | some n =>
        rw [hi] at h
        simp only [Except.ok.injEq] at h
        subst h
        constructor
        · exact le_max_left 1 (min 100 n)
        · exact max_le (by norm_num) (min_le_left 100 n)
      | none =>
        rw [hi] at h
        cases h
    | vother =>
      simp only [clampPerPage, Except.ok.injEq] at h
      subst h
      constructor
      · norm_num
      · norm_num
  · intro hi
    simp only [list_units_api, clampPage, hi]

/-- Witness for the amended C5 at concrete inputs: page `-5` clamps to at
least 1, per_page `250` clamps into 1..100, non-int/str values default,
and the string "abc" produces the 500 error envelope. -/
theorem pagination_clamp_and_defaults_witness :
    ((1 : Int) ≤ 1) ∧ ((1 : Int) ≤ 100 ∧ (100 : Int) ≤ 100) ∧
    clampPage .vother = .ok 1 ∧ clampPerPage .vother = .ok 10 ∧
    list_units_api (fun _ _ => .ok ()) (.vstr (lit "abc")) (.vint 250) =
      error_response (lit "Failed to retrieve units")
        (.errObj (lit "invalid literal for int() with base 10: " ++ lit "abc")) 500 :=
  ⟨(pagination_clamp_and_defaults (.vint (-5)) (.vint 250) 1 100 (fun _ _ => .ok ())
      (lit "abc")).1 (by decide),
   (pagination_clamp_and_defaults (.vint (-5)) (.vint 250) 1 100 (fun _ _ => .ok ())
      (lit "abc")).2.1 (by decide),
   (pagination_clamp_and_defaults (.vint (-5)) (.vint 250) 1 100 (fun _ _ => .ok ())
      (lit "abc")).2.2.1,
   (pagination_clamp_and_defaults (.vint (-5)) (.vint 250) 1 100 (fun _ _ => .ok ())
      (lit "abc")).2.2.2.1,
   (pagination_clamp_and_defaults (.vint (-5)) (.vint 250) 1 100 (fun _ _ => .ok ())
      (lit "abc")).2.2.2.2 (by decide)⟩

/-- C9: in the unit and route list services, a `sort_by` outside the
entity's allow-list is silently replaced by the entity's default column
and an allow-listed `sort_by` is kept; a `sort_order` whose upper-casing
is neither ASC nor DESC is silently replaced by "ASC" and one whose
upper-casing is ASC or DESC is kept; the validation is a total function
whose outputs always lie in the allow-lists, so the call never errors on
an unknown sort field or direction. -/
theorem sort_params_silent_substitution (sb so : Str) :
    ([lit "unitName", lit "id", lit "description", lit "unitSymbol"].contains sb = false →
      (get_units_sort_params sb so).1 = lit "unitName") ∧
    ([lit "unitName", lit "id", lit "description", lit "unitSymbol"].contains sb = true →
      (get_units_sort_params sb so).1 = sb) ∧
    ([lit "routeName", lit "id", lit "isMainRoute", lit "createdAt"].contains sb = false →
      (get_routes_sort_params sb so).1 = lit "routeName") ∧
    ([lit "routeName", lit "id", lit "isMainRoute", lit "createdAt"].contains sb = true →
      (get_routes_sort_params sb so).1 = sb) ∧
    ([lit "ASC", lit "DESC"].contains (strUpper so) = false →
      (get_units_sort_params sb so).2 = lit "ASC" ∧
      (get_routes_sort_params sb so).2 = lit "ASC") ∧
    ([lit "ASC", lit "DESC"].contains (strUpper so) = true →
      (get_units_sort_params sb so).2 = so ∧
      (get_routes_sort_params sb so).2 = so) ∧
    [lit "unitName", lit "id", lit "description", lit "unitSymbol"].contains
      (get_units_sort_params sb so).1 = true ∧
    [lit "routeName", lit "id", lit "isMainRoute", lit "createdAt"].contains
      (get_routes_sort_params sb so).1 = true ∧
    [lit "ASC", lit "DESC"].contains (strUpper (get_units_sort_params sb so).2) = true ∧
    [lit "ASC", lit "DESC"].contains (strUpper (get_routes_sort_params sb so).2) = true := by
  unfold get_units_sort_params get_routes_sort_params
  by_cases hu : [lit "unitName", lit "id", lit "description", lit "unitSymbol"].contains sb = true <;>
    by_cases hr : [lit "routeName", lit "id", lit "isMainRoute", lit "createdAt"].contains sb = true <;>
    by_cases ho : [lit "ASC", lit "DESC"].contains (strUpper so) = true <;>
    simp_all <;> tauto

/-- Witness for C9: an unknown column and direction fall back to the
defaults in both services. -/
theorem sort_params_silent_substitution_witness :
    (get_units_sort_params (lit "evil") (lit "sideways")).1 = lit "unitName" ∧
    (get_routes_sort_params (lit "evil") (lit "sideways")).1 = lit "routeName" ∧
    (get_units_sort_params (lit "evil") (lit "sideways")).2 = lit "ASC" ∧
    (get_routes_sort_params (lit "evil") (lit "sideways")).2 = lit "ASC" ∧
    (get_units_sort_params (lit "id") (lit "desc")).1 = lit "id" ∧
    (get_units_sort_params (lit "id") (lit "desc")).2 = lit "desc" :=
  ⟨(sort_params_silent_substitution (lit "evil") (lit "sideways")).1 (by decide),
   (sort_params_silent_substitution (lit "evil") (lit "sideways")).2.2.1 (by decide),
   ((sort_params_silent_substitution (lit "evil") (lit "sideways")).2.2.2.2.1 (by decide)).1,
   ((sort_params_silent_substitution (lit "evil") (lit "sideways")).2.2.2.2.1 (by decide)).2,
   (sort_params_silent_substitution (lit "id") (lit "desc")).2.1 (by decide),
   ((sort_params_silent_substitution (lit "id") (lit "desc")).2.2.2.2.2.1 (by decide)).1⟩
